import Mathlib

/-!
Verification of the content harvesting and scoring pipeline (`fetch.py`).

The development shallowly embeds the operations of the pipeline:
`EnhancedContentItem.__post_init__`, `TwitterFetcher._auto_categorize`,
`DatabaseManager._basic_content_scoring`, `DatabaseManager._calculate_initial_relevance`,
`DatabaseManager.get_embedding`, `DatabaseManager.get_high_quality_content`,
`DatabaseManager.store_content_item` (the SQL upsert), and
`TwitterFetcher._fetch_user_tweets_impl`.

Python floats are modelled by exact rationals (ℚ); Python ints by ℤ;
timestamps by integer seconds; exceptions by `Except`/explicit failure flags;
the database by explicit in-memory tables; the md5 digest and the pgvector
distance metric by function parameters (their concrete values never matter
for the properties below).
-/

/-! ### String helpers mirroring the Python primitives used by the source -/

/-- Is `n` a prefix of `h`?  (Char-list version of Python `str.startswith`.) -/
def isPrefixOfL : List Char → List Char → Bool
  | [], _ => true
  | _ :: _, [] => false
  | c :: cs, d :: ds => c == d && isPrefixOfL cs ds

/-- Is `n` an infix of `h`?  (Char-list version of Python `needle in hay`.) -/
def isInfixOfL (n : List Char) : List Char → Bool
  | [] => n.isEmpty
  | c :: t => isPrefixOfL n (c :: t) || isInfixOfL n t

/-- Python's substring test `needle in hay`. -/
def strContains (hay needle : String) : Bool :=
  isInfixOfL needle.toList hay.toList

/-- Python `str.lower()` (character-wise, which agrees with Python on the
ASCII keywords and domains the source compares against). -/
def pyLower (s : String) : String := ⟨s.data.map Char.toLower⟩

/-- Accumulator recursion behind `pySplit`: `acc` holds the reversed
characters of the word currently being read. -/
def pySplitAux : List Char → List Char → List String
  | [], acc => if acc = [] then [] else [⟨acc.reverse⟩]
  | c :: cs, acc =>
    if c.isWhitespace then
      if acc = [] then pySplitAux cs [] else ⟨acc.reverse⟩ :: pySplitAux cs []
    else pySplitAux cs (c :: acc)

/-- Python `str.split()` with no argument: split on whitespace runs,
dropping empty pieces. -/
def pySplit (s : String) : List String := pySplitAux s.data []

/-- `len(content.split())` as used by `__post_init__` (a Python int). -/
def pyWordCount (content : String) : Int :=
  ((pySplit content).length : Int)

/-! ### Data model: `ContentCategory` and `EnhancedContentItem` -/

/-- `ContentCategory` enum from the source. -/
inductive ContentCategory where
  | TECH_AI
  | CRYPTO
  | POLITICS
  | REGULATION
  | JOURNALISM
  | BUSINESS
  | PERSONAL
deriving DecidableEq, Repr

/-- The `EnhancedContentItem` dataclass.  Field defaults mirror the dataclass
defaults (`scraped_at`'s `datetime.now()` default is supplied by callers of the
harvester model; the structure default is a placeholder used only when a test
constructs an item directly, as the Python tests do). -/
structure EnhancedContentItem where
  id : String
  source : String
  source_url : String
  title : String
  content : String
  author : String
  published : Int
  primary_category : Option ContentCategory := none
  content_type : String := "short"
  word_count : Int := 0
  reading_time_minutes : Int := 1
  embedding : Option (List ℚ) := none
  relevance_score : ℚ := 1/2
  complexity_score : ℚ := 1/2
  source_metadata : List (String × Int) := []
  scraped_at : Int := 0
deriving DecidableEq, Repr

/-- `EnhancedContentItem.__post_init__`: derive the id when empty (md5 passed
as a parameter), the word count when falsy (0), the reading time when falsy or
equal to the default 1, and always recompute the content-type bucket.
`//` is Python floor division, i.e. `Int.fdiv`. -/
def postInit (md5hex : String → String) (item : EnhancedContentItem) :
    EnhancedContentItem :=
  let newId :=
    if item.id = "" then
      item.source ++ "_" ++ item.author ++ "_" ++
        (md5hex (item.source ++ item.author ++ item.content)).take 8
    else item.id
  let wc : Int :=
    if item.word_count = 0 then pyWordCount item.content else item.word_count
  let rt : Int :=
    if item.reading_time_minutes = 0 ∨ item.reading_time_minutes = 1 then
      max 1 (Int.fdiv wc 200)
    else item.reading_time_minutes
  let ct : String :=
    if wc < 100 then "short" else if wc < 1500 then "medium" else "long"
  { item with id := newId, word_count := wc, reading_time_minutes := rt,
              content_type := ct }

/-! ### `TwitterFetcher._auto_categorize` -/

/-- AI/tech keyword set from the source. -/
def ai_tech_keywords : List String :=
  ["gpt", "ai", "ml", "artificial intelligence", "neural", "llm"]

/-- Crypto keyword set from the source. -/
def crypto_keywords : List String :=
  ["bitcoin", "crypto", "defi", "ethereum", "blockchain"]

/-- Politics keyword set from the source. -/
def politics_keywords : List String :=
  ["congress", "senate", "policy", "legislation", "government"]

/-- Regulation keyword set from the source. -/
def regulation_keywords : List String :=
  ["sec", "regulation", "compliance", "federal"]

/-- `TwitterFetcher._auto_categorize(content, author)`.  The source lowercases
the author into `author_lower` but never consults it: every keyword test is a
substring test against `content_lower` only. -/
def autoCategorize (content author : String) : ContentCategory :=
  let content_lower := pyLower content
  let _author_lower := pyLower author
  if ai_tech_keywords.any (fun w => strContains content_lower w) then
    ContentCategory.TECH_AI
  else if crypto_keywords.any (fun w => strContains content_lower w) then
    ContentCategory.CRYPTO
  else if politics_keywords.any (fun w => strContains content_lower w) then
    ContentCategory.POLITICS
  else if regulation_keywords.any (fun w => strContains content_lower w) then
    ContentCategory.REGULATION
  else
    ContentCategory.BUSINESS

/-- Ordered rule table (category, keyword set) in source order. -/
def categoryRuleTable : List (ContentCategory × List String) :=
  [(ContentCategory.TECH_AI, ai_tech_keywords),
   (ContentCategory.CRYPTO, crypto_keywords),
   (ContentCategory.POLITICS, politics_keywords),
   (ContentCategory.REGULATION, regulation_keywords)]

/-- Modelled from the claim's words (refinement target, NOT from the source):
first-match keyword rules evaluated over both the content and the handle,
defaulting to business when no keyword set matches either. -/
def autoCategorizeOverContentAndHandle (content author : String) :
    ContentCategory :=
  match categoryRuleTable.find?
      (fun p => p.2.any
        (fun w => strContains (pyLower content) w || strContains (pyLower author) w)) with
  | some p => p.1
  | none => ContentCategory.BUSINESS

/-- First-match keyword rules evaluated over the content only (what the source
actually implements, expressed over the ordered rule table). -/
def autoCategorizeOverContent (content : String) : ContentCategory :=
  match categoryRuleTable.find?
      (fun p => p.2.any (fun w => strContains (pyLower content) w)) with
  | some p => p.1
  | none => ContentCategory.BUSINESS

/-! ### `DatabaseManager._basic_content_scoring` -/

/-- Positive-signal keywords from the source. -/
def quality_words : List String :=
  ["breakthrough", "research", "analysis", "report", "study", "development"]

/-- Noise-signal keywords from the source. -/
def noise_words : List String :=
  ["promo", "discount", "webinar", "limited time", "buy now", "click here"]

/-- Credible-domain allowlist from the source. -/
def credible_domains : List String :=
  ["techcrunch", "wired", "reuters", "bloomberg"]

/-- `DatabaseManager._basic_content_scoring(item)`.  The source lowercases the
title into `title_lower` but never consults it; all keyword tests run against
the lowercased content, the domain test against the lowercased source URL.
The `+=` accumulation loops are mirrored by left folds. -/
def basicContentScoring (item : EnhancedContentItem) : ℚ :=
  let content_lower := pyLower item.content
  let _title_lower := pyLower item.title
  let quality_boost0 : ℚ :=
    quality_words.foldl
      (fun acc w => if strContains content_lower w then acc + 1/10 else acc) 0
  let quality_boost : ℚ :=
    if credible_domains.any (fun d => strContains (pyLower item.source_url) d) then
      quality_boost0 + 2/10
    else quality_boost0
  let noise_penalty : ℚ :=
    noise_words.foldl
      (fun acc w => if strContains content_lower w then acc + 2/10 else acc) 0
  let base_score : ℚ := 1/2
  let final_score := base_score + quality_boost - noise_penalty
  max (1/10) (min 1 final_score)

/-! ### `content_items` table rows and `_calculate_initial_relevance` -/

/-- One row of the `content_items` table.  `primary_category` is stored as the
enum's string value; `user_feedback` and `updated_at` are set by external
actors, never by the insert (which omits those columns). -/
structure ContentRow where
  id : String
  source : String
  source_url : String
  title : String
  content : String
  author : String
  published : Int
  primary_category : Option String
  content_type : String
  word_count : Int
  reading_time_minutes : Int
  embedding : Option (List ℚ)
  relevance_score : ℚ
  complexity_score : ℚ
  source_metadata : List (String × Int)
  scraped_at : Int
  updated_at : Option Int
  user_feedback : Option Int
deriving DecidableEq, Repr

/-- The neighbor query of `_calculate_initial_relevance`:
`SELECT user_feedback, distance WHERE user_feedback IS NOT NULL AND
(embedding <-> $1) < 0.3 ORDER BY distance LIMIT 5`.  `dist` is the pgvector
distance metric, a parameter of the model; rows whose stored embedding is SQL
NULL cannot satisfy the distance predicate and are excluded. -/
def knnQuery (dist : List ℚ → List ℚ → ℚ) (table : List ContentRow)
    (e : List ℚ) : List (Int × ℚ) :=
  let cand := table.filterMap (fun r =>
    match r.user_feedback with
    | some f =>
      match r.embedding with
      | some emb => if dist emb e < 3/10 then some (f, dist emb e) else none
      | none => none
    | none => none)
  (cand.insertionSort (fun a b => a.2 ≤ b.2)).take 5

/-- The accumulation loop over the fetched rows: returns
`(total_weight, total_score)` where per row `weight = 1 - distance` and
`score = 1.0 if user_feedback > 0 else 0.0`, `total_score += score * weight`. -/
def knnFold (rows : List (Int × ℚ)) : ℚ × ℚ :=
  rows.foldl
    (fun acc r =>
      (acc.1 + (1 - r.2), acc.2 + (if 0 < r.1 then (1:ℚ) else 0) * (1 - r.2)))
    (0, 0)

/-- `DatabaseManager._calculate_initial_relevance(item)`.  `dbFails` models an
exception raised while acquiring the connection or running the query: the
enclosing `try` then returns `0.5`.  `if item.embedding:` is Python truthiness
(None and the empty list are falsy).  When rows exist and the accumulated
weight is positive the weighted average is returned, otherwise the heuristic
fallback `_basic_content_scoring`. -/
def calculateInitialRelevance (dist : List ℚ → List ℚ → ℚ)
    (table : List ContentRow) (dbFails : Bool) (item : EnhancedContentItem) : ℚ :=
  if dbFails then 1/2
  else
    match item.embedding with
    | some e =>
      if e ≠ [] then
        let rows := knnQuery dist table e
        if rows ≠ [] then
          if 0 < (knnFold rows).1 then (knnFold rows).2 / (knnFold rows).1
          else basicContentScoring item
        else basicContentScoring item
      else basicContentScoring item
    | none => basicContentScoring item

/-! ### `DatabaseManager.get_embedding`: the two-tier embedding cache -/

/-- The mutable caching state: the in-process map `_embedding_cache`, the
durable `embedding_cache` table, and a count of provider calls made so far. -/
structure EmbCacheState where
  memCache : List (String × List ℚ)
  dbCache : List (String × List ℚ)
  providerCalls : Nat
deriving DecidableEq, Repr

/-- The documented fallback vector `[0.0] * 1536`. -/
def zeroVector : List ℚ := List.replicate 1536 0

/-- `DatabaseManager.get_embedding(text)`.  `md5hex` is the md5 hex digest
(a parameter); `provider` maps the index of a provider call and the truncated
input to `some` vector on success or `none` when the external call raises.
Lookup order: in-process map (a membership test) → durable store (Python
truthiness on the fetched value) → provider; a successful provider call writes
through the durable store (`ON CONFLICT DO NOTHING`) and the in-process map;
a failed one returns the all-zero vector and caches nothing. -/
def getEmbedding (md5hex : String → String)
    (provider : Nat → String → Option (List ℚ))
    (st : EmbCacheState) (text : String) : List ℚ × EmbCacheState :=
  let h := md5hex text
  match st.memCache.lookup h with
  | some v => (v, st)
  | none =>
    let dbHit : Option (List ℚ) :=
      match st.dbCache.lookup h with
      | some v => if v ≠ [] then some v else none
      | none => none
    match dbHit with
    | some v => (v, { st with memCache := (h, v) :: st.memCache })
    | none =>
      match provider st.providerCalls (text.take 8000) with
      | some emb =>
        let db2 :=
          if (st.dbCache.lookup h).isSome then st.dbCache
          else (h, emb) :: st.dbCache
        (emb, { memCache := (h, emb) :: st.memCache, dbCache := db2,
                providerCalls := st.providerCalls + 1 })
      | none => (zeroVector, { st with providerCalls := st.providerCalls + 1 })

/-! ### `DatabaseManager.get_high_quality_content` -/

/-- The `ORDER BY relevance_score DESC, published DESC` ordering. -/
def hqOrder (a b : ContentRow) : Prop :=
  b.relevance_score < a.relevance_score ∨
    (a.relevance_score = b.relevance_score ∧ b.published ≤ a.published)

instance hqOrder.instDecidableRel : DecidableRel hqOrder := fun a b => by
  unfold hqOrder; infer_instance

/-- `DatabaseManager.get_high_quality_content(hours, min_score, limit)`:
`SELECT ... WHERE scraped_at > NOW() - INTERVAL 'hours hours' AND
relevance_score >= $1 ORDER BY relevance_score DESC, published DESC LIMIT $2`.
Timestamps are integer seconds, `now` models `NOW()`.  Any exception is caught
and yields the empty list. -/
def getHighQualityContent (table : List ContentRow) (now : Int) (hours : Int)
    (min_score : ℚ) (limit : Nat) (dbFails : Bool) : List ContentRow :=
  if dbFails then []
  else
    (((table.filter (fun r =>
        decide (now - hours * 3600 < r.scraped_at) &&
        decide (min_score ≤ r.relevance_score))).insertionSort hqOrder).take
      limit)

/-! ### `DatabaseManager.store_content_item`: the SQL upsert -/

/-- The `.value` string of a `ContentCategory` (the enum values). -/
def categoryValue : ContentCategory → String
  | ContentCategory.TECH_AI => "tech_ai"
  | ContentCategory.CRYPTO => "crypto"
  | ContentCategory.POLITICS => "politics"
  | ContentCategory.REGULATION => "regulation"
  | ContentCategory.JOURNALISM => "journalism"
  | ContentCategory.BUSINESS => "business"
  | ContentCategory.PERSONAL => "personal"

/-- The row the INSERT would create for `item`: exactly the sixteen listed
columns; `user_feedback` and `updated_at` are not in the column list, so a
fresh row has them unset. -/
def rowOfItem (item : EnhancedContentItem) : ContentRow :=
  { id := item.id, source := item.source, source_url := item.source_url,
    title := item.title, content := item.content, author := item.author,
    published := item.published,
    primary_category := item.primary_category.map categoryValue,
    content_type := item.content_type, word_count := item.word_count,
    reading_time_minutes := item.reading_time_minutes,
    embedding := item.embedding, relevance_score := item.relevance_score,
    complexity_score := item.complexity_score,
    source_metadata := item.source_metadata, scraped_at := item.scraped_at,
    updated_at := none, user_feedback := none }

/-- The upsert of `store_content_item`:
`INSERT ... ON CONFLICT (id) DO UPDATE SET embedding = EXCLUDED.embedding,
relevance_score = EXCLUDED.relevance_score,
source_metadata = EXCLUDED.source_metadata, updated_at = NOW()`.
`id` is the primary key; on conflict only those four columns change. -/
def upsertUpdate (item : EnhancedContentItem) (now : Int) (r : ContentRow) :
    ContentRow :=
  if r.id == item.id then
    { r with embedding := item.embedding,
             relevance_score := item.relevance_score,
             source_metadata := item.source_metadata,
             updated_at := some now }
  else r

/-- The whole upsert: on an id conflict apply `upsertUpdate` to the table,
otherwise append the freshly inserted row. -/
def storeUpsert (table : List ContentRow) (item : EnhancedContentItem)
    (now : Int) : List ContentRow :=
  if (table.find? (fun r => r.id == item.id)).isSome then
    table.map (upsertUpdate item now)
  else table ++ [rowOfItem item]

/-! ### `TwitterFetcher._fetch_user_tweets_impl`: the web harvester -/

/-- One rendered item node as seen through the browser automation interface.
`textEl` is the result of querying the tweet-text selector (`none` when the
node has no such element); `extractFails` models an exception raised while
querying or reading the node, caught by the per-node `except`; `metadata` is
the engagement map produced by the inner metric loop (whose own failures the
source swallows with a bare `except: pass`). -/
structure TweetNode where
  textEl : Option String
  extractFails : Bool
  metadata : List (String × Int)
deriving Repr

/-- The external world of one harvester call.  `initFails`: browser/session
initialization or page creation raises (these run before the `try` block);
`loadResult`: whether `page.goto url` succeeds for a given candidate URL;
`selectorOk`: whether `wait_for_selector` succeeds for a given selector;
`pageTweets k`: the nodes rendered after `k` scrolls;
`scrollFails k`: the scroll evaluation raises at iteration `k` (caught by the
outer `except`, which then returns the items collected so far);
`hasDb`, `storeOk k`, `storeEmb k`, `storeScore k`: presence of the database
manager, success of the `k`-th `store_content_item` call and the embedding
and relevance it writes into the stored item; `nowTime`: `datetime.now()`. -/
structure ScrapeEnv where
  initFails : Bool
  loadResult : String → Bool
  selectorOk : String → Bool
  pageTweets : Nat → List TweetNode
  scrollFails : Nat → Bool
  hasDb : Bool
  storeOk : Nat → Bool
  storeEmb : Nat → List ℚ
  storeScore : Nat → ℚ
  nowTime : Int

/-- The prioritized item-container selectors from the source. -/
def tweet_selectors : List String :=
  ["[data-testid=\"tweet\"]", "article[data-testid=\"tweet\"]", "[role=\"article\"]"]

/-- Intermediate scraping state: collected items, `tweet_count`, the
`seen_content` hash set (as a list) and the number of store calls made. -/
structure ScrapeState where
  items : List EnhancedContentItem
  tweetCount : Nat
  seen : List String
  storeCalls : Nat

/-- The `EnhancedContentItem(...)` construction inside the loop, including its
`__post_init__` (id generation, word count, reading time, content type). -/
def mkTweetItem (md5hex : String → String) (env : ScrapeEnv)
    (username text : String) (metadata : List (String × Int)) :
    EnhancedContentItem :=
  postInit md5hex
    { id := "", source := "twitter",
      source_url := "https://twitter.com/" ++ username,
      title := "Tweet by @" ++ username,
      content := text, author := username,
      published := env.nowTime,
      primary_category := some (autoCategorize text username),
      source_metadata := metadata,
      scraped_at := env.nowTime }

/-- The per-node body of the scraping `for` loop: stop adding once
`max_tweets` is reached, skip on extraction failure, missing text element,
short text, or a repeated content hash; otherwise build the item and either
store it (appending only on store success) or append it directly. -/
def processNode (md5hex : String → String) (env : ScrapeEnv) (username : String)
    (maxTweets : Nat) (st : ScrapeState) (node : TweetNode) : ScrapeState :=
  if maxTweets ≤ st.tweetCount then st
  else if node.extractFails then st
  else
    match node.textEl with
    | none => st
    | some text =>
      if text = "" ∨ text.trim.length < 5 then st
      else
        let h := (md5hex text).take 8
        if st.seen.contains h then st
        else
          let item := mkTweetItem md5hex env username text node.metadata
          if env.hasDb then
            if env.storeOk st.storeCalls then
              { items := st.items ++
                  [{ item with embedding := some (env.storeEmb st.storeCalls),
                               relevance_score := env.storeScore st.storeCalls }],
                tweetCount := st.tweetCount + 1,
                seen := h :: st.seen, storeCalls := st.storeCalls + 1 }
            else
              { st with seen := h :: st.seen, storeCalls := st.storeCalls + 1 }
          else
            { st with items := st.items ++ [item],
                      tweetCount := st.tweetCount + 1, seen := h :: st.seen }

/-- The pagination loop.  `fuel` is the number of scroll attempts still
allowed (`max_scroll_attempts - scroll_attempts`), `attempt` the current
scroll index.  Mirrors
`while tweet_count < max_tweets and scroll_attempts < max_scroll_attempts`,
the inner `for`, the post-loop break, and the scroll whose failure is caught
by the outer `except` and yields the items collected so far. -/
def scrapeLoop (md5hex : String → String) (env : ScrapeEnv) (username : String)
    (maxTweets : Nat) : Nat → Nat → ScrapeState → List EnhancedContentItem
  | 0, _, st => st.items
  | fuel + 1, attempt, st =>
    if maxTweets ≤ st.tweetCount then st.items
    else
      let st' := (env.pageTweets attempt).foldl
        (processNode md5hex env username maxTweets) st
      if maxTweets ≤ st'.tweetCount then st'.items
      else if env.scrollFails attempt then st'.items
      else scrapeLoop md5hex env username maxTweets fuel (attempt + 1) st'

/-- `TwitterFetcher._fetch_user_tweets_impl(username, max_tweets)`.
Browser initialization and page creation run before the `try` block, so their
failure propagates (`Except.error`).  Inside the `try`: candidate URLs are
attempted in order and the first successful load wins, returning `[]` when
none succeeds; then the selectors are probed in order, returning `[]` when
none matches; then the pagination loop runs with
`max_scroll_attempts` scroll budget. -/
def fetchUserTweetsImpl (md5hex : String → String) (env : ScrapeEnv)
    (maxScrollAttempts : Nat) (username : String) (maxTweets : Nat) :
    Except Unit (List EnhancedContentItem) :=
  if env.initFails then Except.error ()
  else
    let urls := ["https://x.com/" ++ username, "https://twitter.com/" ++ username]
    let page_loaded := urls.any env.loadResult
    if page_loaded = false then Except.ok []
    else
      let tweet_found := tweet_selectors.any env.selectorOk
      if tweet_found = false then Except.ok []
      else
        Except.ok (scrapeLoop md5hex env username maxTweets maxScrollAttempts 0
          ⟨[], 0, [], 0⟩)

/-- `TwitterFetcher.fetch_user_tweets`: acquires the concurrency semaphore and
delegates; for a single call the semaphore has no observable effect. -/
def fetchUserTweets (md5hex : String → String) (env : ScrapeEnv)
    (maxScrollAttempts : Nat) (username : String) (maxTweets : Nat) :
    Except Unit (List EnhancedContentItem) :=
  fetchUserTweetsImpl md5hex env maxScrollAttempts username maxTweets

/-! ### Concrete inputs used by counterexamples and witnesses -/

/-- The clamp `max lo (min hi x)` used by the heuristic score. -/
def clamp (lo hi x : ℚ) : ℚ := max lo (min hi x)

/-- An item constructed with an explicit non-default reading time (any field
combination is legal for the dataclass constructor). -/
def itemRT7 : EnhancedContentItem :=
  { id := "x", source := "twitter", source_url := "u", title := "t",
    content := "a b c", author := "A", published := 0,
    reading_time_minutes := 7 }

/-- The spec's scenario item: content containing "research" and
"breakthrough", source URL containing "techcrunch", no other quality or noise
keyword matches. -/
def exampleTechItem : EnhancedContentItem :=
  { id := "t1", source := "rss",
    source_url := "https://techcrunch.com/article",
    title := "Title", content := "research breakthrough", author := "a",
    published := 0 }

/-- An environment whose browser initialization fails; everything else is
benign. -/
def envInitFail : ScrapeEnv :=
  { initFails := true, loadResult := fun _ => true, selectorOk := fun _ => true,
    pageTweets := fun _ => [], scrollFails := fun _ => false, hasDb := false,
    storeOk := fun _ => true, storeEmb := fun _ => [], storeScore := fun _ => 0,
    nowTime := 0 }

/-- An environment where initialization succeeds but no candidate URL loads. -/
def envNoLoad : ScrapeEnv :=
  { initFails := false, loadResult := fun _ => false,
    selectorOk := fun _ => true, pageTweets := fun _ => [],
    scrollFails := fun _ => false, hasDb := false, storeOk := fun _ => true,
    storeEmb := fun _ => [], storeScore := fun _ => 0, nowTime := 0 }

/-- A stored row carrying external user feedback, for the upsert witness. -/
def rowWithFeedback : ContentRow :=
  { id := "a", source := "twitter", source_url := "u", title := "t",
    content := "c", author := "au", published := 5,
    primary_category := some "tech_ai", content_type := "short",
    word_count := 3, reading_time_minutes := 1, embedding := some [1, 2],
    relevance_score := 3/10, complexity_score := 1/2, source_metadata := [],
    scraped_at := 9, updated_at := none, user_feedback := some 1 }

/-- An incoming item with the same id as `rowWithFeedback` but different
content fields and a new embedding and score. -/
def itemSameId : EnhancedContentItem :=
  { id := "a", source := "twitter", source_url := "u2", title := "t2",
    content := "c2 longer", author := "au", published := 6,
    embedding := some [3, 4], relevance_score := 8/10,
    source_metadata := [("likes", 2)], scraped_at := 11 }

/-- A neighbor row at distance determined by the witness metric. -/
def rowNeighbor : ContentRow :=
  { id := "n1", source := "rss", source_url := "u", title := "t",
    content := "c", author := "au", published := 0,
    primary_category := none, content_type := "short", word_count := 1,
    reading_time_minutes := 1, embedding := some [1, 0],
    relevance_score := 1/2, complexity_score := 1/2, source_metadata := [],
    scraped_at := 0, updated_at := none, user_feedback := some 1 }

/-- An item carrying an embedding, for the k-NN witness. -/
def itemWithEmb : EnhancedContentItem :=
  { id := "e1", source := "rss", source_url := "u", title := "t",
    content := "c", author := "au", published := 0,
    embedding := some [1, 1] }

/-- A constant distance metric used by concrete witnesses. -/
def distOne10 : List ℚ → List ℚ → ℚ := fun _ _ => 1/10

/-- Concrete table for the high-quality-query witness. -/
def hqTable : List ContentRow :=
  [{ rowWithFeedback with
     id := "r1", relevance_score := 8/10, scraped_at := 950, published := 1 },
   { rowWithFeedback with
     id := "r2", relevance_score := 9/10, scraped_at := 990, published := 2 },
   { rowWithFeedback with
     id := "r3", relevance_score := 2/10, scraped_at := 990, published := 3 }]

/-! ## Theorems -/

/-! ### Shared helper lemmas -/

/-- A `+= c` accumulation loop guarded by a predicate equals
`c` times the number of matches. -/
theorem foldl_count_boost (c : ℚ) (p : String → Bool) :
    ∀ (ws : List String) (init : ℚ),
      ws.foldl (fun acc w => if p w then acc + c else acc) init =
        init + c * ((ws.filter p).length : ℚ) := by
  intro ws
  induction ws with
  | nil => intro init; simp
  | cons w t ih =>
    intro init
    by_cases h : p w
    · simp only [List.foldl_cons, h, if_true, ih, List.filter_cons, List.length_cons]
      push_cast
      ring
    · simp only [List.foldl_cons, h, Bool.false_eq_true, if_false, ih, List.filter_cons]

/-- `_basic_content_scoring` in closed form: the spec's clamp formula
`clamp(0.5 + 0.1·quality + 0.2·credible − 0.2·noise, 0.1, 1.0)`. -/
theorem basicContentScoring_eq (item : EnhancedContentItem) :
    basicContentScoring item =
      clamp (1/10) 1 (1/2
        + (1/10) * ((quality_words.filter
            (fun w => strContains (pyLower item.content) w)).length : ℚ)
        + (if credible_domains.any
              (fun d => strContains (pyLower item.source_url) d) then
             (2:ℚ)/10 else 0)
        - (2/10) * ((noise_words.filter
            (fun w => strContains (pyLower item.content) w)).length : ℚ)) := by
  unfold basicContentScoring clamp
  dsimp only
  rw [foldl_count_boost, foldl_count_boost]
  by_cases hc : credible_domains.any (fun d => strContains (pyLower item.source_url) d)
  · simp only [hc, if_true]
    ring_nf
  · simp only [hc, if_false, Bool.false_eq_true]
    ring_nf

/-- The clamp always lands in `[1/10, 1]`. -/
theorem clamp_bounds (x : ℚ) : 1/10 ≤ clamp (1/10) 1 x ∧ clamp (1/10) 1 x ≤ 1 := by
  unfold clamp
  constructor
  · exact le_max_left _ _
  · apply max_le
    · norm_num
    · exact min_le_left _ _

/-! ### C9: derived fields of `__post_init__` -/

/-- C9 (amended): after construction, `content_type` always satisfies the §3
bucket invariant relative to the final `word_count`; the reading-time
invariant `reading_time_minutes = max(1, word_count // 200)` holds whenever
the value passed to the constructor was the falsy 0 or the default 1 (a
non-default explicit reading time is preserved as passed, which is what the
counterexample exhibits). -/
theorem C9_postInit_derived_fields (md5hex : String → String)
    (item : EnhancedContentItem) :
    ((postInit md5hex item).content_type = "short" ↔
        (postInit md5hex item).word_count < 100) ∧
    ((postInit md5hex item).content_type = "medium" ↔
        (100 ≤ (postInit md5hex item).word_count ∧
         (postInit md5hex item).word_count < 1500)) ∧
    ((postInit md5hex item).content_type = "long" ↔
        1500 ≤ (postInit md5hex item).word_count) ∧
    ((item.reading_time_minutes = 0 ∨ item.reading_time_minutes = 1) →
        (postInit md5hex item).reading_time_minutes =
          max 1 (Int.fdiv (postInit md5hex item).word_count 200)) := by
  unfold postInit
  dsimp only
  refine ⟨?_, ?_, ?_, ?_⟩
  · split_ifs with h1 h2 <;> simp_all <;> omega
  · split_ifs with h1 h2 <;> simp_all <;> omega
  · split_ifs with h1 h2 <;> simp_all <;> omega
  · intro h
    rw [if_pos h]

/-- C9 counterexample: an item constructed with `reading_time_minutes = 7`
and three words of content keeps reading time 7 after `__post_init__`,
while `max(1, word_count // 200) = 1`, so the claimed invariant does not hold
"regardless of the field values passed to the constructor". -/
theorem C9_counterexample :
    (postInit (fun _ => "") itemRT7).reading_time_minutes = 7 ∧
    max 1 (Int.fdiv (postInit (fun _ => "") itemRT7).word_count 200) = 1 ∧
    (7 : Int) ≠ 1 := by
  refine ⟨by decide, ?_, by decide⟩
  have h : (postInit (fun _ => "") itemRT7).word_count = 3 := by decide
  have h2 : Int.fdiv 3 200 = 0 := by decide
  rw [h, h2]
  exact max_eq_left (by norm_num)

/-- C9 witness: on an item whose reading time was left at the default 1, the
amended invariant applies and yields `max(1, word_count // 200)`. -/
theorem C9_witness :
    (postInit (fun _ => "") exampleTechItem).reading_time_minutes =
      max 1 (Int.fdiv (postInit (fun _ => "") exampleTechItem).word_count 200) :=
  (C9_postInit_derived_fields (fun _ => "") exampleTechItem).2.2.2 (Or.inr rfl)

/-! ### C8: `_auto_categorize` -/

/-- C8 counterexample: content "hello world" matches no keyword set, but the
handle "gpt" matches the AI/tech set; the source still returns BUSINESS
because the handle is never consulted, while the claim's rule (evaluated over
both the content and the handle) yields TECH_AI. -/
theorem C8_counterexample :
    autoCategorize "hello world" "gpt" = ContentCategory.BUSINESS ∧
    autoCategorizeOverContentAndHandle "hello world" "gpt" =
      ContentCategory.TECH_AI := by
  decide

/-- C8 (amended): categorization assigns exactly one category by first-match
keyword rules evaluated over the content only, in the fixed order AI/tech,
crypto, politics, regulation, defaulting to business when no keyword set
matches the content; the handle (author) is lowercased but ignored, so the
result is independent of it. -/
theorem C8_categorize_content_only (content author : String) :
    autoCategorize content author = autoCategorizeOverContent content ∧
    (∀ a2 : String, autoCategorize content author = autoCategorize content a2) := by
  constructor
  · unfold autoCategorize autoCategorizeOverContent categoryRuleTable
    dsimp only
    cases h1 : ai_tech_keywords.any (fun w => strContains (pyLower content) w) <;>
    cases h2 : crypto_keywords.any (fun w => strContains (pyLower content) w) <;>
    cases h3 : politics_keywords.any (fun w => strContains (pyLower content) w) <;>
    cases h4 : regulation_keywords.any (fun w => strContains (pyLower content) w) <;>
    simp [List.find?, h1, h2, h3, h4]
  · intro a2
    rfl

/-- Every row returned by the neighbor query satisfies the query's distance
predicate `distance < 0.3`. -/
theorem knnQuery_dist_lt (dist : List ℚ → List ℚ → ℚ) (table : List ContentRow)
    (e : List ℚ) : ∀ p ∈ knnQuery dist table e, p.2 < 3/10 := by
  intro p hp
  unfold knnQuery at hp
  have hp2 := List.take_subset _ _ hp
  have hp3 := (List.mem_insertionSort _).1 hp2
  rw [List.mem_filterMap] at hp3
  obtain ⟨r, _, hfr⟩ := hp3
  cases hf : r.user_feedback with
  | none => rw [hf] at hfr; simp at hfr
  | some f =>
    cases hemb : r.embedding with
    | none => rw [hf, hemb] at hfr; simp at hfr
    | some emb =>
      rw [hf, hemb] at hfr
      dsimp only at hfr
      by_cases hd : dist emb e < 3/10
      · rw [if_pos hd] at hfr
        cases hfr
        exact hd
      · rw [if_neg hd] at hfr
        cases hfr

/-- The accumulation loop in closed form, with general accumulator. -/
theorem knnFold_go : ∀ (rows : List (Int × ℚ)) (a b : ℚ),
    rows.foldl (fun acc r =>
        (acc.1 + (1 - r.2), acc.2 + (if 0 < r.1 then (1:ℚ) else 0) * (1 - r.2)))
      (a, b) =
    (a + (rows.map (fun r => 1 - r.2)).sum,
     b + (rows.map (fun r => (if 0 < r.1 then (1:ℚ) else 0) * (1 - r.2))).sum) := by
  intro rows
  induction rows with
  | nil => intro a b; simp
  | cons r t ih =>
    intro a b
    simp only [List.foldl_cons, ih, List.map_cons, List.sum_cons, Prod.mk.injEq]
    constructor <;> ring

/-- `total_weight` is the sum of the per-row weights `1 - distance`. -/
theorem knnFold_fst (rows : List (Int × ℚ)) :
    (knnFold rows).1 = (rows.map (fun r => 1 - r.2)).sum := by
  unfold knnFold
  rw [knnFold_go]
  simp

/-- `total_score` is the sum of the per-row `label * weight` terms. -/
theorem knnFold_snd (rows : List (Int × ℚ)) :
    (knnFold rows).2 =
      (rows.map (fun r => (if 0 < r.1 then (1:ℚ) else 0) * (1 - r.2))).sum := by
  unfold knnFold
  rw [knnFold_go]
  simp

/-- With at least one neighbor, the accumulated weight is positive (each
weight exceeds `0.7` because every returned distance is below `0.3`). -/
theorem knnFold_fst_pos (dist : List ℚ → List ℚ → ℚ) (table : List ContentRow)
    (e : List ℚ) (h : knnQuery dist table e ≠ []) :
    0 < (knnFold (knnQuery dist table e)).1 := by
  rw [knnFold_fst]
  apply List.sum_pos
  · intro x hx
    rw [List.mem_map] at hx
    obtain ⟨p, hp, rfl⟩ := hx
    have := knnQuery_dist_lt dist table e p hp
    linarith
  · intro hmap
    exact h (List.map_eq_nil_iff.mp hmap)

/-- The accumulated score is nonnegative. -/
theorem knnFold_snd_nonneg (dist : List ℚ → List ℚ → ℚ) (table : List ContentRow)
    (e : List ℚ) : 0 ≤ (knnFold (knnQuery dist table e)).2 := by
  rw [knnFold_snd]
  apply List.sum_nonneg
  intro x hx
  rw [List.mem_map] at hx
  obtain ⟨p, hp, rfl⟩ := hx
  have := knnQuery_dist_lt dist table e p hp
  have hw : (0:ℚ) ≤ 1 - p.2 := by linarith
  by_cases hs : 0 < p.1 <;> simp [hs, hw]

/-- The accumulated score never exceeds the accumulated weight. -/
theorem knnFold_snd_le_fst (dist : List ℚ → List ℚ → ℚ) (table : List ContentRow)
    (e : List ℚ) :
    (knnFold (knnQuery dist table e)).2 ≤ (knnFold (knnQuery dist table e)).1 := by
  rw [knnFold_fst, knnFold_snd]
  apply List.sum_le_sum
  intro p hp
  have := knnQuery_dist_lt dist table e p hp
  have hw : (0:ℚ) ≤ 1 - p.2 := by linarith
  by_cases hs : 0 < p.1 <;> simp [hs, hw]

/-- C3 (amended): whenever the neighbor lookup succeeds and no
feedback-labeled neighbor exists within radius 0.3 (no embedding, an empty
embedding, or an empty query result), the relevance score equals exactly
`clamp(0.5 + 0.1*quality_matches + 0.2*credible_domain - 0.2*noise_matches,
0.1, 1.0)`; when the lookup itself fails the code instead returns the flat
`0.5` (see the counterexample).  The witness instantiates the scenario:
content with "research" and "breakthrough" and a "techcrunch" URL scores
`0.9`. -/
theorem C3_heuristic_fallback (dist : List ℚ → List ℚ → ℚ)
    (table : List ContentRow) (item : EnhancedContentItem)
    (hnb : item.embedding = none ∨ item.embedding = some [] ∨
           (∀ e, item.embedding = some e → knnQuery dist table e = [])) :
    calculateInitialRelevance dist table false item =
      clamp (1/10) 1 (1/2
        + (1/10) * ((quality_words.filter
            (fun w => strContains (pyLower item.content) w)).length : ℚ)
        + (if credible_domains.any
              (fun d => strContains (pyLower item.source_url) d) then
             (2:ℚ)/10 else 0)
        - (2/10) * ((noise_words.filter
            (fun w => strContains (pyLower item.content) w)).length : ℚ)) := by
  rw [← basicContentScoring_eq]
  unfold calculateInitialRelevance
  rcases hnb with h | h | h
  · simp [h]
  · simp [h]
  · cases hemb : item.embedding with
    | none => simp
    | some e =>
      by_cases he : e = []
      · simp [hemb, he]
      · have hrows := h e hemb
        simp [hemb, he, hrows]

/-- The spec's scenario item evaluates to `0.9` under the heuristic. -/
theorem exampleTechItem_heuristic : basicContentScoring exampleTechItem = 9/10 := by
  rw [basicContentScoring_eq]
  have hq : (quality_words.filter
      (fun w => strContains (pyLower exampleTechItem.content) w)).length = 2 := by decide
  have hn : (noise_words.filter
      (fun w => strContains (pyLower exampleTechItem.content) w)).length = 0 := by decide
  have hc : credible_domains.any
      (fun d => strContains (pyLower exampleTechItem.source_url) d) = true := by decide
  rw [hq, hn]
  simp only [hc, if_true]
  unfold clamp
  have : (1:ℚ)/2 + 1/10 * ((2:ℕ) : ℚ) + 2/10 - 2/10 * ((0:ℕ) : ℚ) = 9/10 := by
    push_cast; ring
  rw [this]
  rw [min_eq_right (by norm_num), max_eq_right (by norm_num)]

/-- C3 counterexample: for the scenario item, a failing neighbor lookup
(`dbFails = true`) yields `0.5`, not the heuristic value `0.9` demanded by
the claim's "(or the neighbor lookup fails)" disjunct. -/
theorem C3_counterexample :
    calculateInitialRelevance (fun _ _ => (0:ℚ)) [] true exampleTechItem = 1/2 ∧
    basicContentScoring exampleTechItem = 9/10 ∧
    ((1:ℚ)/2) ≠ 9/10 := by
  refine ⟨rfl, exampleTechItem_heuristic, by norm_num⟩

/-- C3 witness: with a working store and no stored neighbors, the scenario
item scores exactly `0.9`. -/
theorem C3_witness :
    calculateInitialRelevance (fun _ _ => (0:ℚ)) [] false exampleTechItem = 9/10 := by
  have h := C3_heuristic_fallback (fun _ _ => (0:ℚ)) [] exampleTechItem (Or.inl rfl)
  rw [h, ← basicContentScoring_eq]
  exact exampleTechItem_heuristic

/-- C4 (confirmed): for every item the relevance-scoring operation is a total
function (the model returns a rational in every case, all exceptions being
mapped to `0.5` by the enclosing handler) with value in `[0, 1]`, and the
heuristic fallback value always lies in `[0.1, 1.0]`. -/
theorem C4_relevance_bounds (dist : List ℚ → List ℚ → ℚ)
    (table : List ContentRow) (dbFails : Bool) (item : EnhancedContentItem) :
    (0 ≤ calculateInitialRelevance dist table dbFails item ∧
     calculateInitialRelevance dist table dbFails item ≤ 1) ∧
    (1/10 ≤ basicContentScoring item ∧ basicContentScoring item ≤ 1) := by
  have hbasic : 1/10 ≤ basicContentScoring item ∧ basicContentScoring item ≤ 1 := by
    rw [basicContentScoring_eq]
    exact clamp_bounds _
  refine ⟨?_, hbasic⟩
  have hbasic01 : 0 ≤ basicContentScoring item ∧ basicContentScoring item ≤ 1 :=
    ⟨by linarith [hbasic.1], hbasic.2⟩
  unfold calculateInitialRelevance
  cases dbFails with
  | true => simp; norm_num
  | false =>
    simp only [Bool.false_eq_true, if_false]
    cases hemb : item.embedding with
    | none => exact hbasic01
    | some e =>
      by_cases he : e = []
      · simp [he]
        exact hbasic01
      · simp only [he, ne_eq, not_false_iff, if_true]
        by_cases hrows : knnQuery dist table e = []
        · simp [hrows]
          exact hbasic01
        · simp only [hrows, ne_eq, not_false_iff, if_true]
          have htw := knnFold_fst_pos dist table e hrows
          rw [if_pos htw]
          constructor
          · exact div_nonneg (knnFold_snd_nonneg dist table e) (le_of_lt htw)
          · rw [div_le_one htw]
            exact knnFold_snd_le_fst dist table e

/-- If some stored row is feedback-labeled and within radius 0.3, the
neighbor query is nonempty. -/
theorem knnQuery_ne_nil (dist : List ℚ → List ℚ → ℚ) (table : List ContentRow)
    (e : List ℚ)
    (hnb : ∃ r ∈ table, (∃ f, r.user_feedback = some f) ∧
           ∃ emb, r.embedding = some emb ∧ dist emb e < 3/10) :
    knnQuery dist table e ≠ [] := by
  obtain ⟨r, hr, ⟨f, hf⟩, ⟨emb, hemb, hd⟩⟩ := hnb
  unfold knnQuery
  intro hq
  have hmem : (f, dist emb e) ∈ table.filterMap (fun r =>
      match r.user_feedback with
      | some f =>
        match r.embedding with
        | some emb => if dist emb e < 3/10 then some (f, dist emb e) else none
        | none => none
      | none => none) := by
    rw [List.mem_filterMap]
    refine ⟨r, hr, ?_⟩
    rw [hf, hemb]
    simp [hd]
  have hlen := congrArg List.length hq
  rw [List.length_take, List.length_insertionSort] at hlen
  simp only [List.length_nil] at hlen
  have hL : ∀ n : Nat, 5 ⊓ n = 0 → n = 0 := by omega
  have hzero := hL _ hlen
  rw [List.length_eq_zero] at hzero
  rw [hzero] at hmem
  exact absurd hmem (List.not_mem_nil _)

/-- C2 (confirmed): when the item has a (truthy) embedding and at least one
previously feedback-labeled neighbor lies at distance below 0.3, the score
equals `sum(weight*label)/sum(weight)` over the query result, where
`weight = 1 - distance` and `label = 1` iff the neighbor's feedback is
positive; moreover the query takes at most 5 rows, nearest-first. -/
theorem C2_knn_weighted_relevance (dist : List ℚ → List ℚ → ℚ)
    (table : List ContentRow) (item : EnhancedContentItem) (e : List ℚ)
    (hemb : item.embedding = some e) (hne : e ≠ [])
    (hnb : ∃ r ∈ table, (∃ f, r.user_feedback = some f) ∧
           ∃ emb, r.embedding = some emb ∧ dist emb e < 3/10) :
    calculateInitialRelevance dist table false item =
      ((knnQuery dist table e).map
          (fun p => (1 - p.2) * (if 0 < p.1 then (1:ℚ) else 0))).sum /
        ((knnQuery dist table e).map (fun p => 1 - p.2)).sum ∧
    (knnQuery dist table e).length ≤ 5 ∧
    List.Sorted (fun a b : Int × ℚ => a.2 ≤ b.2) (knnQuery dist table e) := by
  have hne' := knnQuery_ne_nil dist table e hnb
  have htw := knnFold_fst_pos dist table e hne'
  refine ⟨?_, ?_, ?_⟩
  · unfold calculateInitialRelevance
    simp only [hemb, hne, ne_eq, not_false_iff, if_true, Bool.false_eq_true, if_false,
      hne', htw]
    rw [knnFold_fst, knnFold_snd]
    congr 1
    apply congrArg List.sum
    apply List.map_congr_left
    intro p _
    ring
  · unfold knnQuery
    rw [List.length_take]
    exact min_le_left _ _
  · unfold knnQuery
    letI : IsTotal (Int × ℚ) (fun a b : Int × ℚ => a.2 ≤ b.2) :=
      ⟨fun a b => le_total a.2 b.2⟩
    letI : IsTrans (Int × ℚ) (fun a b : Int × ℚ => a.2 ≤ b.2) :=
      ⟨fun _ _ _ h1 h2 => le_trans h1 h2⟩
    exact List.Pairwise.sublist (List.take_sublist _ _)
      (List.sorted_insertionSort _ _)

/-- C2 witness: one stored neighbor with positive feedback at distance 0.1
under a concrete metric. -/
theorem C2_witness :
    calculateInitialRelevance distOne10 [rowNeighbor] false itemWithEmb =
      ((knnQuery distOne10 [rowNeighbor] [1, 1]).map
          (fun p => (1 - p.2) * (if 0 < p.1 then (1:ℚ) else 0))).sum /
        ((knnQuery distOne10 [rowNeighbor] [1, 1]).map (fun p => 1 - p.2)).sum ∧
    (knnQuery distOne10 [rowNeighbor] [1, 1]).length ≤ 5 ∧
    List.Sorted (fun a b : Int × ℚ => a.2 ≤ b.2)
      (knnQuery distOne10 [rowNeighbor] [1, 1]) :=
  C2_knn_weighted_relevance distOne10 [rowNeighbor] itemWithEmb [1, 1] rfl
    (by simp)
    ⟨rowNeighbor, by simp, ⟨1, rfl⟩, ⟨[1, 0], rfl, by norm_num [distOne10]⟩⟩

/-- C5 (confirmed): starting from a state where the text's hash is in
neither cache tier and the provider call succeeds, calling `get_embedding`
twice on the identical text makes exactly one provider call: the first call
returns the provider's vector and writes it through both the in-process map
and the durable store; the second call returns the same vector with no
further provider call. -/
theorem C5_embedding_cache_one_call (md5hex : String → String)
    (provider : Nat → String → Option (List ℚ)) (st : EmbCacheState)
    (text : String) (v : List ℚ)
    (hmem : st.memCache.lookup (md5hex text) = none)
    (hdb : st.dbCache.lookup (md5hex text) = none)
    (hprov : provider st.providerCalls (text.take 8000) = some v) :
    (getEmbedding md5hex provider st text).1 = v ∧
    (getEmbedding md5hex provider
        (getEmbedding md5hex provider st text).2 text).1 = v ∧
    (getEmbedding md5hex provider st text).2.providerCalls =
      st.providerCalls + 1 ∧
    (getEmbedding md5hex provider
          (getEmbedding md5hex provider st text).2 text).2.providerCalls =
      st.providerCalls + 1 ∧
    ((getEmbedding md5hex provider st text).2.memCache.lookup (md5hex text)
      = some v) ∧
    ((getEmbedding md5hex provider st text).2.dbCache.lookup (md5hex text)
      = some v) := by
  have heq1 : getEmbedding md5hex provider st text =
      (v, ⟨(md5hex text, v) :: st.memCache, (md5hex text, v) :: st.dbCache,
           st.providerCalls + 1⟩) := by
    unfold getEmbedding
    simp only [hmem, hdb, hprov, Option.isSome_none, Bool.false_eq_true, if_false]
  have hlook : ((md5hex text, v) :: st.memCache).lookup (md5hex text) = some v := by
    simp [List.lookup]
  have heq2 : getEmbedding md5hex provider
      (⟨(md5hex text, v) :: st.memCache, (md5hex text, v) :: st.dbCache,
        st.providerCalls + 1⟩ : EmbCacheState) text =
      (v, ⟨(md5hex text, v) :: st.memCache, (md5hex text, v) :: st.dbCache,
           st.providerCalls + 1⟩) := by
    unfold getEmbedding
    simp only [hlook]
  rw [heq1]
  refine ⟨rfl, ?_, rfl, ?_, ?_, ?_⟩
  · rw [heq2]
  · rw [heq2]
  · exact hlook
  · simp [List.lookup]

/-- C5 witness: empty caches, provider returning `[1]`, text `"x"`. -/
theorem C5_witness :
    (getEmbedding (fun t => t) (fun _ _ => some [1]) ⟨[], [], 0⟩ "x").1 = [1] ∧
    (getEmbedding (fun t => t) (fun _ _ => some [1])
        (getEmbedding (fun t => t) (fun _ _ => some [1]) ⟨[], [], 0⟩ "x").2
        "x").1 = [1] ∧
    (getEmbedding (fun t => t) (fun _ _ => some [1])
        ⟨[], [], 0⟩ "x").2.providerCalls = 0 + 1 ∧
    (getEmbedding (fun t => t) (fun _ _ => some [1])
        (getEmbedding (fun t => t) (fun _ _ => some [1]) ⟨[], [], 0⟩ "x").2
        "x").2.providerCalls = 0 + 1 ∧
    ((getEmbedding (fun t => t) (fun _ _ => some [1])
        ⟨[], [], 0⟩ "x").2.memCache.lookup ((fun (t : String) => t) "x")
      = some [1]) ∧
    ((getEmbedding (fun t => t) (fun _ _ => some [1])
        ⟨[], [], 0⟩ "x").2.dbCache.lookup ((fun (t : String) => t) "x")
      = some [1]) :=
  C5_embedding_cache_one_call (fun t => t) (fun _ _ => some [1]) ⟨[], [], 0⟩
    "x" [1] rfl rfl rfl

/-- C10 (confirmed): when the provider call fails on a full cache miss,
`get_embedding` returns the 1536-dimensional all-zero vector, writes nothing
to either cache tier, and a later call with the same text reaches the
provider again (the call counter advances twice) and returns whatever the
retried provider yields rather than a cached zero vector. -/
theorem C10_provider_failure_not_cached (md5hex : String → String)
    (provider : Nat → String → Option (List ℚ)) (st : EmbCacheState)
    (text : String)
    (hmem : st.memCache.lookup (md5hex text) = none)
    (hdb : st.dbCache.lookup (md5hex text) = none)
    (hprov : provider st.providerCalls (text.take 8000) = none) :
    (getEmbedding md5hex provider st text).1 = List.replicate 1536 0 ∧
    (getEmbedding md5hex provider st text).2.memCache = st.memCache ∧
    (getEmbedding md5hex provider st text).2.dbCache = st.dbCache ∧
    (getEmbedding md5hex provider st text).2.providerCalls =
      st.providerCalls + 1 ∧
    (getEmbedding md5hex provider
          (getEmbedding md5hex provider st text).2 text).2.providerCalls =
      st.providerCalls + 2 ∧
    (∀ w, provider (st.providerCalls + 1) (text.take 8000) = some w →
        (getEmbedding md5hex provider
          (getEmbedding md5hex provider st text).2 text).1 = w) := by
  have heq1 : getEmbedding md5hex provider st text =
      (zeroVector, { st with providerCalls := st.providerCalls + 1 }) := by
    unfold getEmbedding
    simp only [hmem, hdb, hprov]
  rw [heq1]
  refine ⟨rfl, rfl, rfl, rfl, ?_, ?_⟩
  · unfold getEmbedding
    dsimp only
    simp only [hmem, hdb]
    cases hp2 : provider (st.providerCalls + 1) (text.take 8000) <;> rfl
  · intro w hw
    unfold getEmbedding
    dsimp only
    simp only [hmem, hdb, hw]

/-- C10 witness: empty caches and an always-failing provider. -/
theorem C10_witness :
    (getEmbedding (fun t => t) (fun _ _ => none) ⟨[], [], 0⟩ "x").1 =
      List.replicate 1536 0 ∧
    (getEmbedding (fun t => t) (fun _ _ => none) ⟨[], [], 0⟩ "x").2.memCache
      = ([] : List (String × List ℚ)) ∧
    (getEmbedding (fun t => t) (fun _ _ => none) ⟨[], [], 0⟩ "x").2.dbCache
      = ([] : List (String × List ℚ)) ∧
    (getEmbedding (fun t => t) (fun _ _ => none)
        ⟨[], [], 0⟩ "x").2.providerCalls = 0 + 1 ∧
    (getEmbedding (fun t => t) (fun _ _ => none)
        (getEmbedding (fun t => t) (fun _ _ => none) ⟨[], [], 0⟩ "x").2
        "x").2.providerCalls = 0 + 2 ∧
    (∀ w, (fun (_ : Nat) (_ : String) =>
          (none : Option (List ℚ))) (0 + 1) ("x".take 8000) = some w →
        (getEmbedding (fun t => t) (fun _ _ => none)
          (getEmbedding (fun t => t) (fun _ _ => none) ⟨[], [], 0⟩ "x").2
          "x").1 = w) :=
  C10_provider_failure_not_cached (fun t => t) (fun _ _ => none) ⟨[], [], 0⟩
    "x" rfl rfl rfl

/-- `hqOrder` is total. -/
instance hqOrder.instIsTotal : IsTotal ContentRow hqOrder := by
  constructor
  intro a b
  unfold hqOrder
  rcases lt_trichotomy a.relevance_score b.relevance_score with h | h | h
  · right; left; exact h
  · rcases le_total a.published b.published with hp | hp
    · right; right; exact ⟨h.symm, hp⟩
    · left; right; exact ⟨h, hp⟩
  · left; left; exact h

/-- `hqOrder` is transitive. -/
instance hqOrder.instIsTrans : IsTrans ContentRow hqOrder := by
  constructor
  intro a b c hab hbc
  unfold hqOrder at *
  rcases hab with h1 | ⟨h1, h1p⟩ <;> rcases hbc with h2 | ⟨h2, h2p⟩
  · left; exact lt_trans h2 h1
  · left; rw [← h2]; exact h1
  · left; rw [h1]; exact h2
  · right; exact ⟨h1.trans h2, le_trans h2p h1p⟩

/-- C6 (confirmed): the high-quality query returns only rows whose
`scraped_at` lies within the last `hours` hours of `now` and whose relevance
score is at least `min_score`, sorted by relevance score descending then
published descending, with at most `limit` rows (and `[]` when the query
raises). -/
theorem C6_high_quality_query (table : List ContentRow) (now : Int)
    (hours : Int) (min_score : ℚ) (limit : Nat) (dbFails : Bool) :
    (∀ r ∈ getHighQualityContent table now hours min_score limit dbFails,
        now - hours * 3600 < r.scraped_at ∧ min_score ≤ r.relevance_score) ∧
    List.Sorted hqOrder
      (getHighQualityContent table now hours min_score limit dbFails) ∧
    (getHighQualityContent table now hours min_score limit dbFails).length ≤
      limit := by
  unfold getHighQualityContent
  cases dbFails with
  | true => simp
  | false =>
    simp only [Bool.false_eq_true, if_false]
    refine ⟨?_, ?_, ?_⟩
    · intro r hr
      have hr2 := List.take_subset _ _ hr
      have hr3 := (List.mem_insertionSort _).1 hr2
      rw [List.mem_filter] at hr3
      have := hr3.2
      simp only [Bool.and_eq_true, decide_eq_true_eq] at this
      exact this
    · exact List.Pairwise.sublist (List.take_sublist _ _)
        (List.sorted_insertionSort _ _)
    · rw [List.length_take]
      exact min_le_left _ _

/-- C6 witness: a concrete three-row table with a 24-hour window. -/
theorem C6_witness :
    (∀ r ∈ getHighQualityContent hqTable 1000 24 (7/10) 2 false,
        1000 - 24 * 3600 < r.scraped_at ∧ 7/10 ≤ r.relevance_score) ∧
    List.Sorted hqOrder (getHighQualityContent hqTable 1000 24 (7/10) 2 false) ∧
    (getHighQualityContent hqTable 1000 24 (7/10) 2 false).length ≤ 2 :=
  C6_high_quality_query hqTable 1000 24 (7/10) 2 false

/-- Applying the conflict update twice (with
the same incoming item and timestamp) equals applying it once. -/
theorem upsertUpdate_idem (item : EnhancedContentItem) (now : Int)
    (r : ContentRow) :
    upsertUpdate item now (upsertUpdate item now r) = upsertUpdate item now r := by
  unfold upsertUpdate
  by_cases h : r.id == item.id <;> simp [h]

/-- C7 (confirmed): the upsert is idempotent by id — when a row with the
item's id already exists, the upsert rewrites only `embedding`,
`relevance_score`, `source_metadata` and `updated_at` (last-write-wins from
the incoming item), leaves every other stored column of that row unchanged —
in particular the externally recorded `user_feedback` — and repeating the
upsert changes nothing further. -/
theorem C7_upsert_frame (table : List ContentRow) (item : EnhancedContentItem)
    (now : Int) (r : ContentRow) (hr : r ∈ table) (hid : r.id = item.id) :
    storeUpsert table item now = table.map (upsertUpdate item now) ∧
    upsertUpdate item now r ∈ storeUpsert table item now ∧
    ((upsertUpdate item now r).embedding = item.embedding ∧
     (upsertUpdate item now r).relevance_score = item.relevance_score ∧
     (upsertUpdate item now r).source_metadata = item.source_metadata ∧
     (upsertUpdate item now r).updated_at = some now) ∧
    ((upsertUpdate item now r).id = r.id ∧
     (upsertUpdate item now r).source = r.source ∧
     (upsertUpdate item now r).source_url = r.source_url ∧
     (upsertUpdate item now r).title = r.title ∧
     (upsertUpdate item now r).content = r.content ∧
     (upsertUpdate item now r).author = r.author ∧
     (upsertUpdate item now r).published = r.published ∧
     (upsertUpdate item now r).primary_category = r.primary_category ∧
     (upsertUpdate item now r).content_type = r.content_type ∧
     (upsertUpdate item now r).word_count = r.word_count ∧
     (upsertUpdate item now r).reading_time_minutes = r.reading_time_minutes ∧
     (upsertUpdate item now r).complexity_score = r.complexity_score ∧
     (upsertUpdate item now r).scraped_at = r.scraped_at ∧
     (upsertUpdate item now r).user_feedback = r.user_feedback) ∧
    storeUpsert (storeUpsert table item now) item now =
      storeUpsert table item now := by
  have hbeq : (r.id == item.id) = true := by
    rw [hid]; exact beq_self_eq_true _
  have hfind : (table.find? (fun x => x.id == item.id)).isSome := by
    rw [List.find?_isSome]
    exact ⟨r, hr, hbeq⟩
  have heq : storeUpsert table item now = table.map (upsertUpdate item now) := by
    unfold storeUpsert
    rw [if_pos hfind]
  refine ⟨heq, ?_, ?_, ?_, ?_⟩
  · rw [heq]
    exact List.mem_map_of_mem _ hr
  · unfold upsertUpdate
    rw [if_pos hbeq]
    exact ⟨rfl, rfl, rfl, rfl⟩
  · unfold upsertUpdate
    rw [if_pos hbeq]
    refine ⟨rfl, rfl, rfl, rfl, rfl, rfl, rfl, rfl, rfl, rfl, rfl, rfl, rfl, rfl⟩
  · have hfind2 : ((table.map (upsertUpdate item now)).find?
        (fun x => x.id == item.id)).isSome := by
      rw [List.find?_isSome]
      refine ⟨upsertUpdate item now r, List.mem_map_of_mem _ hr, ?_⟩
      unfold upsertUpdate
      rw [if_pos hbeq]
      exact hbeq
    rw [heq]
    unfold storeUpsert
    rw [if_pos hfind2, List.map_map]
    apply List.map_congr_left
    intro x _
    exact upsertUpdate_idem item now x

/-- C7 witness: a one-row table whose row carries user feedback. -/
theorem C7_witness :
    storeUpsert [rowWithFeedback] itemSameId 42 =
      [rowWithFeedback].map (upsertUpdate itemSameId 42) ∧
    upsertUpdate itemSameId 42 rowWithFeedback ∈
      storeUpsert [rowWithFeedback] itemSameId 42 ∧
    ((upsertUpdate itemSameId 42 rowWithFeedback).embedding =
        itemSameId.embedding ∧
     (upsertUpdate itemSameId 42 rowWithFeedback).relevance_score =
        itemSameId.relevance_score ∧
     (upsertUpdate itemSameId 42 rowWithFeedback).source_metadata =
        itemSameId.source_metadata ∧
     (upsertUpdate itemSameId 42 rowWithFeedback).updated_at = some 42) ∧
    ((upsertUpdate itemSameId 42 rowWithFeedback).id = rowWithFeedback.id ∧
     (upsertUpdate itemSameId 42 rowWithFeedback).source =
        rowWithFeedback.source ∧
     (upsertUpdate itemSameId 42 rowWithFeedback).source_url =
        rowWithFeedback.source_url ∧
     (upsertUpdate itemSameId 42 rowWithFeedback).title =
        rowWithFeedback.title ∧
     (upsertUpdate itemSameId 42 rowWithFeedback).content =
        rowWithFeedback.content ∧
     (upsertUpdate itemSameId 42 rowWithFeedback).author =
        rowWithFeedback.author ∧
     (upsertUpdate itemSameId 42 rowWithFeedback).published =
        rowWithFeedback.published ∧
     (upsertUpdate itemSameId 42 rowWithFeedback).primary_category =
        rowWithFeedback.primary_category ∧
     (upsertUpdate itemSameId 42 rowWithFeedback).content_type =
        rowWithFeedback.content_type ∧
     (upsertUpdate itemSameId 42 rowWithFeedback).word_count =
        rowWithFeedback.word_count ∧
     (upsertUpdate itemSameId 42 rowWithFeedback).reading_time_minutes =
        rowWithFeedback.reading_time_minutes ∧
     (upsertUpdate itemSameId 42 rowWithFeedback).complexity_score =
        rowWithFeedback.complexity_score ∧
     (upsertUpdate itemSameId 42 rowWithFeedback).scraped_at =
        rowWithFeedback.scraped_at ∧
     (upsertUpdate itemSameId 42 rowWithFeedback).user_feedback =
        rowWithFeedback.user_feedback) ∧
    storeUpsert (storeUpsert [rowWithFeedback] itemSameId 42) itemSameId 42 =
      storeUpsert [rowWithFeedback] itemSameId 42 :=
  C7_upsert_frame [rowWithFeedback] itemSameId 42 rowWithFeedback
    (List.mem_singleton_self _) rfl

/-- C1 counterexample: browser initialization runs before the `try` block of
`_fetch_user_tweets_impl`, so its failure propagates out of
`fetch_user_tweets` instead of yielding an (empty) item sequence. -/
theorem C1_counterexample :
    fetchUserTweets (fun _ => "") envInitFail 8 "alice" 20 = Except.error () :=
  rfl

/-- C1 (amended): provided browser-session initialization and page creation
succeed, the fetch never propagates an exception — it returns the ordered
sequence of items obtained — and in particular returns the empty sequence
when no candidate URL completes a page load or when no known item-container
selector matches.  When initialization itself fails the exception escapes
(see the counterexample). -/
theorem C1_fetch_best_effort (md5hex : String → String) (env : ScrapeEnv)
    (maxScroll : Nat) (username : String) (maxTweets : Nat)
    (hinit : env.initFails = false) :
    (∃ l, fetchUserTweets md5hex env maxScroll username maxTweets =
        Except.ok l) ∧
    ((env.loadResult ("https://x.com/" ++ username) = false ∧
      env.loadResult ("https://twitter.com/" ++ username) = false) →
      fetchUserTweets md5hex env maxScroll username maxTweets =
        Except.ok []) ∧
    ((∀ s ∈ tweet_selectors, env.selectorOk s = false) →
      fetchUserTweets md5hex env maxScroll username maxTweets =
        Except.ok []) := by
  unfold fetchUserTweets fetchUserTweetsImpl
  simp only [hinit, Bool.false_eq_true, if_false]
  refine ⟨?_, ?_, ?_⟩
  · cases h1 : [("https://x.com/" ++ username : String),
        "https://twitter.com/" ++ username].any env.loadResult
    · exact ⟨[], by simp [h1]⟩
    · cases h2 : tweet_selectors.any env.selectorOk
      · exact ⟨[], by simp [h1, h2]⟩
      · exact ⟨scrapeLoop md5hex env username maxTweets maxScroll 0
          ⟨[], 0, [], 0⟩, by simp [h1, h2]⟩
  · rintro ⟨hl1, hl2⟩
    have h1 : [("https://x.com/" ++ username : String),
        "https://twitter.com/" ++ username].any env.loadResult = false := by
      simp [hl1, hl2]
    simp [h1]
  · intro hsel
    have hs : tweet_selectors.any env.selectorOk = false :=
      List.any_eq_false.mpr (fun s hmem => by simp [hsel s hmem])
    cases h1 : [("https://x.com/" ++ username : String),
        "https://twitter.com/" ++ username].any env.loadResult
    · simp [h1]
    · simp [h1, hs]

/-- C1 witness: initialization succeeds but neither candidate URL loads. -/
theorem C1_witness :
    fetchUserTweets (fun _ => "") envNoLoad 8 "alice" 20 = Except.ok [] :=
  (C1_fetch_best_effort (fun _ => "") envNoLoad 8 "alice" 20 rfl).2.1 ⟨rfl, rfl⟩
